import Mathlib

set_option maxRecDepth 16000

/-!
Verification of the air-quality-monitor firmware against its specification.

The Rust sources are shallowly embedded: `f32` values are modelled as exact
rationals (`ℚ`), fallible reads as `Option`, the fixed-capacity `heapless::Vec`
buffers as lists with explicit capacity guards, and the asynchronous tasks as
pure step functions folded over lists of inputs.
-/

namespace AirQuality

/-! ## Humidity calibrator (`src/humidity_calibrator.rs`) -/

/-- `INITIAL_BASELINE_READINGS`: number of initial readings treated as baseline truth. -/
def INITIAL_BASELINE_READINGS : Nat := 5

/-- `DRIFT_LEARNING_RATE` (0.02). -/
def DRIFT_LEARNING_RATE : ℚ := 1 / 50

/-- `MIN_DRIFT_THRESHOLD` (2.0). -/
def MIN_DRIFT_THRESHOLD : ℚ := 2

/-- `RAPID_CHANGE_THRESHOLD` (5.0). -/
def RAPID_CHANGE_THRESHOLD : ℚ := 5

/-- `CHANGE_HISTORY_SIZE`: capacity of the recent-readings window. -/
def CHANGE_HISTORY_SIZE : Nat := 3

/-- `MIN_STABLE_READINGS_AFTER_RAPID_CHANGE` (12). -/
def MIN_STABLE_READINGS_AFTER_RAPID_CHANGE : Nat := 12

/-- `BASELINE_SHIFT_THRESHOLD` (8.0). -/
def BASELINE_SHIFT_THRESHOLD : ℚ := 8

/-- `BASELINE_SHIFT_CONFIRMATION_READINGS` (6). -/
def BASELINE_SHIFT_CONFIRMATION_READINGS : Nat := 6

/-- `MIN_READINGS_FOR_LONG_TERM_DRIFT` (100). -/
def MIN_READINGS_FOR_LONG_TERM_DRIFT : Nat := 100

/-- `LONG_TERM_DRIFT_THRESHOLD` (10.0). -/
def LONG_TERM_DRIFT_THRESHOLD : ℚ := 10

/-- `LONG_TERM_DRIFT_LEARNING_RATE` (0.005). -/
def LONG_TERM_DRIFT_LEARNING_RATE : ℚ := 1 / 200

/-- State of `HumidityCalibrator` (the raw-humidity values of the
`recent_readings` ring buffer are kept as a list, newest last). -/
structure CalibState where
  recent_readings : List ℚ
  humidity_offset : ℚ
  current_baseline : Option ℚ
  baseline_reading_count : Nat
  reading_sequence : Nat
  stable_reading_count : Nat
  in_rapid_change_period : Bool
  pre_change_baseline : Option ℚ
  baseline_confirmation_count : Nat
  baseline_shifted : Bool
  long_term_statistical_offset : ℚ
  long_term_stable_count : Nat
deriving Repr, DecidableEq

/-- `HumidityCalibrator::new`. -/
def CalibState.new : CalibState where
  recent_readings := []
  humidity_offset := 0
  current_baseline := none
  baseline_reading_count := 0
  reading_sequence := 0
  stable_reading_count := 0
  in_rapid_change_period := false
  pre_change_baseline := none
  baseline_confirmation_count := 0
  baseline_shifted := false
  long_term_statistical_offset := 0
  long_term_stable_count := 0

/-- `HumidityCalibrator::expected_indoor_humidity`. -/
def expected_indoor_humidity (temperature_c : ℚ) : ℚ :=
  let base_humidity : ℚ := 45
  let temp_coefficient : ℚ := -1 / 2
  let seasonal_variation : ℚ := 5
  let expected := base_humidity + (25 - temperature_c) * temp_coefficient
  max (30 - seasonal_variation) (min expected (60 + seasonal_variation))

/-- `HumidityCalibrator::detect_rapid_change`.  Pushing into the full
`heapless::Vec` first removes the oldest slot; a push into a full buffer is a
silent no-op, mirrored by the capacity guard. -/
def detect_rapid_change (raw_humidity : ℚ) (s : CalibState) : (Bool × ℚ) × CalibState :=
  let s := { s with reading_sequence := s.reading_sequence + 1 }
  let kept := if s.recent_readings.length ≥ CHANGE_HISTORY_SIZE then
      s.recent_readings.drop 1 else s.recent_readings
  let rr := if kept.length < CHANGE_HISTORY_SIZE then kept ++ [raw_humidity] else kept
  let s := { s with recent_readings := rr }
  if rr.length < 2 then
    ((false, 0), { s with stable_reading_count := 0, baseline_confirmation_count := 0 })
  else
    let oldest_reading := rr.headD 0
    let total_change := raw_humidity - oldest_reading
    if |total_change| ≥ RAPID_CHANGE_THRESHOLD then
      let s :=
        if s.pre_change_baseline = none ∧ s.in_rapid_change_period = false then
          let baseline :=
            if rr.length ≥ 2 then
              ((rr.take (rr.length - 1)).sum) / ((rr.length - 1 : Nat) : ℚ)
            else oldest_reading
          { s with pre_change_baseline := some baseline }
        else s
      ((true, total_change),
        { s with stable_reading_count := 0, baseline_confirmation_count := 0,
                 in_rapid_change_period := true, baseline_shifted := false })
    else
      let s := { s with stable_reading_count := s.stable_reading_count + 1 }
      match s.pre_change_baseline with
      | some baseline =>
          let change_from_baseline := raw_humidity - baseline
          if |change_from_baseline| ≥ BASELINE_SHIFT_THRESHOLD then
            let s := { s with baseline_confirmation_count := s.baseline_confirmation_count + 1 }
            let s := if s.baseline_confirmation_count ≥ BASELINE_SHIFT_CONFIRMATION_READINGS then
                { s with baseline_shifted := true } else s
            ((false, total_change), s)
          else
            let s := { s with baseline_confirmation_count := 0 }
            if s.stable_reading_count ≥ MIN_STABLE_READINGS_AFTER_RAPID_CHANGE then
              ((false, total_change),
                { s with in_rapid_change_period := false,
                         current_baseline := some raw_humidity,
                         baseline_reading_count := INITIAL_BASELINE_READINGS,
                         pre_change_baseline := none,
                         baseline_shifted := false,
                         humidity_offset := 0 })
            else ((false, total_change), s)
      | none =>
          if s.stable_reading_count ≥ MIN_STABLE_READINGS_AFTER_RAPID_CHANGE then
            ((false, total_change), { s with in_rapid_change_period := false })
          else ((false, total_change), s)

/-- `HumidityCalibrator::reset_calibration_for_rapid_change`. -/
def reset_calibration_for_rapid_change (s : CalibState) : CalibState :=
  { s with current_baseline := none, baseline_reading_count := 0, humidity_offset := 0 }

/-- `HumidityCalibrator::handle_rapid_change`. -/
def handle_rapid_change (raw_humidity : ℚ) (s : CalibState) : Bool × CalibState :=
  let r := detect_rapid_change raw_humidity s
  let s := r.2
  if r.1.1 then (true, reset_calibration_for_rapid_change s)
  else if s.in_rapid_change_period then (true, s)
  else (false, s)

/-- `HumidityCalibrator::update_baseline_establishment`. -/
def update_baseline_establishment (raw_humidity : ℚ) (s : CalibState) : Bool × CalibState :=
  if s.baseline_reading_count ≥ INITIAL_BASELINE_READINGS then (false, s)
  else
    let s :=
      match s.current_baseline with
      | none => { s with current_baseline := some raw_humidity }
      | some current_baseline =>
          let new_baseline := (current_baseline * (s.baseline_reading_count : ℚ) + raw_humidity) /
            ((s.baseline_reading_count + 1 : Nat) : ℚ)
          { s with current_baseline := some new_baseline }
    (true, { s with baseline_reading_count := s.baseline_reading_count + 1 })

/-- `HumidityCalibrator::update_long_term_stability`. -/
def update_long_term_stability (drift : ℚ) (s : CalibState) : CalibState :=
  if s.in_rapid_change_period = false ∧ |drift| < RAPID_CHANGE_THRESHOLD then
    { s with long_term_stable_count := s.long_term_stable_count + 1 }
  else
    { s with long_term_stable_count := 0 }

/-- `HumidityCalibrator::apply_long_term_drift_correction`. -/
def apply_long_term_drift_correction (temperature raw_humidity : ℚ) (s : CalibState) : CalibState :=
  if s.long_term_stable_count < MIN_READINGS_FOR_LONG_TERM_DRIFT then s
  else
    let expected := expected_indoor_humidity temperature
    let statistical_error := raw_humidity - expected
    if |statistical_error| ≥ LONG_TERM_DRIFT_THRESHOLD then
      { s with long_term_statistical_offset :=
          s.long_term_statistical_offset * (1 - LONG_TERM_DRIFT_LEARNING_RATE) +
            (-statistical_error) * LONG_TERM_DRIFT_LEARNING_RATE }
    else s

/-- `HumidityCalibrator::apply_baseline_drift_correction`. -/
def apply_baseline_drift_correction (baseline raw_humidity : ℚ) (s : CalibState) : CalibState :=
  let drift := raw_humidity - baseline
  if |drift| ≥ MIN_DRIFT_THRESHOLD then
    { s with humidity_offset :=
        s.humidity_offset * (1 - DRIFT_LEARNING_RATE) + (-drift) * DRIFT_LEARNING_RATE }
  else s

/-- `HumidityCalibrator::add_measurement`. -/
def add_measurement (temperature raw_humidity : ℚ) (s : CalibState) : CalibState :=
  let s := (detect_rapid_change raw_humidity s).2
  let h := handle_rapid_change raw_humidity s
  if h.1 then h.2
  else
    let s := h.2
    let e := update_baseline_establishment raw_humidity s
    if e.1 then e.2
    else
      let s := e.2
      match s.current_baseline with
      | some baseline =>
          let drift := raw_humidity - baseline
          let s := update_long_term_stability drift s
          let s := apply_long_term_drift_correction temperature raw_humidity s
          apply_baseline_drift_correction baseline raw_humidity s
      | none => s

/-- `HumidityCalibrator::calibrate_humidity`. -/
def calibrate_humidity (s : CalibState) (raw_humidity : ℚ) : ℚ :=
  if s.baseline_reading_count < INITIAL_BASELINE_READINGS then raw_humidity
  else
    let baseline_corrected := raw_humidity + s.humidity_offset
    let fully_corrected := baseline_corrected + s.long_term_statistical_offset
    max 0 (min fully_corrected 100)

/-- Feed a list of `(temperature, raw_humidity)` measurements to a fresh
calibrator, as the sensor task does once per reading cycle. -/
def runCalib (ms : List (ℚ × ℚ)) : CalibState :=
  ms.foldl (fun s m => add_measurement m.1 m.2 s) CalibState.new

/-! ## Air quality index (`ens160_aq::data::AirQualityIndex`) -/

/-- The ENS160 air-quality index levels. -/
inductive AirQualityIndex where
  | excellent
  | good
  | moderate
  | poor
  | unhealthy
deriving Repr, DecidableEq

/-! ## ENS160 reading aggregation (`src/sensor.rs`, `read_ens160`) -/

/-- Modelled from the `moving_median` crate used by `read_ens160`: the median
of a full 3-slot window is the middle value in sorted order. -/
def median3 (a b c : ℚ) : ℚ := max (min a b) (min (max a b) c)

/-- The `min_by` selection in `read_ens160`: among the collected
`(co2, air_quality_index)` pairs, keep the one whose CO2 value is closest to
the median; Rust's `Iterator::min_by` keeps the earlier element on ties. -/
def read_ens160_select (pairs : List (ℚ × AirQualityIndex)) (median_co2 : ℚ) :
    Option AirQualityIndex :=
  (pairs.foldl
    (fun acc p =>
      match acc with
      | none => some p
      | some q => if |q.1 - median_co2| > |p.1 - median_co2| then some p else some q)
    none).map Prod.snd

/-- The pure core of `read_ens160`: given the three raw `(co2, aqi)` pairs
collected in one call, compute the median CO2 and the selected index. -/
def read_ens160_result (r1 r2 r3 : ℚ × AirQualityIndex) : ℚ × Option AirQualityIndex :=
  let median_co2 := median3 r1.1 r2.1 r3.1
  (median_co2, read_ens160_select [r1, r2, r3] median_co2)

/-- Stated from the spec's words, for comparison with `read_ens160_select`:
the air-quality index of the first pair in collection order whose CO2 value is
numerically closest to the median. -/
def closest_first_spec (pairs : List (ℚ × AirQualityIndex)) (median_co2 : ℚ) :
    Option AirQualityIndex :=
  (pairs.find? (fun p => pairs.all (fun q =>
    decide (|p.1 - median_co2| ≤ |q.1 - median_co2|)))).map Prod.snd

/-! ## Watchdog health supervisor (`src/watchdog.rs`) -/

/-- `COUNTDOWN_TIMEOUT` in seconds (900 s = 15 minutes). -/
def COUNTDOWN_TIMEOUT : Nat := 900

/-- `TaskId`. -/
inductive WTaskId where
  | sensor
  | display
  | vsys
  | orchestrator
  | mode_switch
deriving Repr, DecidableEq

/-- All five tracked tasks, in array-index order. -/
def allWTasks : List WTaskId :=
  [WTaskId.sensor, WTaskId.display, WTaskId.vsys, WTaskId.orchestrator, WTaskId.mode_switch]

/-- `SystemHealth`; the five-element `tasks` array is modelled as a function,
`Instant`s as natural-number timestamps (seconds). -/
structure SystemHealth where
  tasks : WTaskId → Bool
  all_healthy : Bool
  countdown_deadline : Option Nat

/-- `SystemHealth::new`: all tasks unhealthy, no countdown armed. -/
def SystemHealth.new : SystemHealth where
  tasks := fun _ => false
  all_healthy := false
  countdown_deadline := none

/-- `SystemHealth::update_overall_health`, with `now` the current instant. -/
def update_overall_health (now : Nat) (s : SystemHealth) : SystemHealth :=
  let was_all_healthy := s.all_healthy
  let ah := allWTasks.all (fun t => s.tasks t)
  let s := { s with all_healthy := ah }
  if ah ∧ was_all_healthy = false then
    { s with countdown_deadline := some (now + COUNTDOWN_TIMEOUT) }
  else if ah = false ∧ s.countdown_deadline = none then
    { s with countdown_deadline := some (now + COUNTDOWN_TIMEOUT) }
  else s

/-- `SystemHealth::set_task_succeeded`. -/
def set_task_succeeded (now : Nat) (task_id : WTaskId) (s : SystemHealth) : SystemHealth :=
  update_overall_health now
    { s with tasks := fun t => if t = task_id then true else s.tasks t }

/-- `SystemHealth::set_task_failed`. -/
def set_task_failed (now : Nat) (task_id : WTaskId) (s : SystemHealth) : SystemHealth :=
  update_overall_health now
    { s with tasks := fun t => if t = task_id then false else s.tasks t }

/-- `SystemHealth::reset_countdown`. -/
def reset_countdown (now : Nat) (s : SystemHealth) : SystemHealth :=
  if s.all_healthy then { s with countdown_deadline := some (now + COUNTDOWN_TIMEOUT) }
  else s

/-- `SystemHealth::should_trigger_reset`. -/
def should_trigger_reset (now : Nat) (s : SystemHealth) : Bool :=
  match s.countdown_deadline with
  | some deadline => decide (deadline ≤ now)
  | none => false

/-- One iteration of the health-check loop in `watchdog_task`: update overall
health, re-arm the countdown if all tasks are healthy, then ask whether the
hardware watchdog reset path should be entered. -/
def watchdog_check (now : Nat) (s : SystemHealth) : Bool × SystemHealth :=
  let s := update_overall_health now s
  let s := if s.all_healthy then reset_countdown now s else s
  (should_trigger_reset now s, s)

/-- The operations that mutate the global `SYSTEM_HEALTH` state. -/
inductive WOp where
  | report_success (task_id : WTaskId)
  | report_failure (task_id : WTaskId)
  | tick
deriving Repr, DecidableEq

/-- Apply one timed operation to the health state. -/
def wstep (now : Nat) (op : WOp) (s : SystemHealth) : SystemHealth :=
  match op with
  | .report_success task_id => set_task_succeeded now task_id s
  | .report_failure task_id => set_task_failed now task_id s
  | .tick => (watchdog_check now s).2

/-- Run a timed sequence of health-state operations. -/
def wrun (l : List (Nat × WOp)) (s : SystemHealth) : SystemHealth :=
  l.foldl (fun s p => wstep p.1 p.2 s) s

/-- Operations that keep the task set of claim C5 constant: the four healthy
tasks report success, Vsys reports failure, and the watchdog ticks. -/
def holdsVsysDown (op : WOp) : Prop :=
  match op with
  | .report_success task_id => task_id ≠ WTaskId.vsys
  | .report_failure task_id => task_id = WTaskId.vsys
  | .tick => True

instance (op : WOp) : Decidable (holdsVsysDown op) := by
  unfold holdsVsysDown
  cases op <;> infer_instance

/-- The task-health vector of claim C5: every task healthy except Vsys. -/
def vsysDownVector : WTaskId → Bool := fun t =>
  match t with
  | WTaskId.vsys => false
  | _ => true

/-! ## System state and orchestrator (`src/system_state.rs`, `src/orchestrate.rs`) -/

/-- `DisplayMode`. -/
inductive DisplayMode where
  | raw_data
  | co2_history
deriving Repr, DecidableEq

/-- `SensorData` as built by the orchestrator from a sensor event. -/
structure SensorData where
  temperature : ℚ
  raw_temperature : ℚ
  humidity : ℚ
  raw_humidity : ℚ
  co2 : Nat
  etoh : Nat
  air_quality : AirQualityIndex
deriving Repr, DecidableEq

/-- `Event` (`src/event.rs`). -/
inductive Event where
  | sensorData (temperature raw_temperature humidity raw_humidity : ℚ)
      (co2 etoh : Nat) (air_quality : AirQualityIndex)
  | batteryCharging
  | batteryLevel (level : Nat)
  | toggleDisplayMode
deriving Repr, DecidableEq

/-- `DisplayCommand` (`src/display.rs`). -/
inductive DisplayCommand where
  | sensorData (temperature raw_temperature humidity raw_humidity : ℚ)
      (co2 etoh : Nat) (air_quality : AirQualityIndex)
  | updateBatteryCharging
  | updateBatteryPercentage (level : Nat)
  | toggleMode
deriving Repr, DecidableEq

/-- `SystemState` (the ENS160 calibration bookkeeping, untouched by the
orchestrator, is omitted). -/
structure SystemState where
  battery_percent : Nat
  is_charging : Bool
  last_sensor_data : Option SensorData
  co2_history : List Nat
  display_mode : DisplayMode
deriving Repr, DecidableEq

/-- `SystemState::new`. -/
def SystemState.new : SystemState where
  battery_percent := 100
  is_charging := false
  last_sensor_data := none
  co2_history := []
  display_mode := DisplayMode.raw_data

/-- `SystemState::add_co2_measurement`: a full 10-slot history first drops its
oldest entry; a push into a full `heapless::Vec` would be a silent no-op,
mirrored by the capacity guard. -/
def SystemState.add_co2_measurement (co2 : Nat) (s : SystemState) : SystemState :=
  let kept := if s.co2_history.length ≥ 10 then s.co2_history.drop 1 else s.co2_history
  { s with co2_history := if kept.length < 10 then kept ++ [co2] else kept }

/-- `SystemState::set_last_sensor_data`. -/
def SystemState.set_last_sensor_data (data : SensorData) (s : SystemState) : SystemState :=
  { s with last_sensor_data := some data }

/-- `SystemState::toggle_display_mode`. -/
def SystemState.toggle_display_mode (s : SystemState) : SystemState :=
  { s with display_mode :=
      match s.display_mode with
      | DisplayMode.raw_data => DisplayMode.co2_history
      | DisplayMode.co2_history => DisplayMode.raw_data }

/-- `process_event` (`src/orchestrate.rs`): the new system state and the
display commands sent during the call. -/
def process_event (event : Event) (s : SystemState) : SystemState × List DisplayCommand :=
  match event with
  | .sensorData temperature raw_temperature humidity raw_humidity co2 etoh air_quality =>
      let sensor_data : SensorData :=
        ⟨temperature, raw_temperature, humidity, raw_humidity, co2, etoh, air_quality⟩
      let s := s.add_co2_measurement co2
      let s := s.set_last_sensor_data sensor_data
      (s, [DisplayCommand.sensorData temperature raw_temperature humidity raw_humidity
            co2 etoh air_quality])
  | .batteryCharging =>
      ({ s with is_charging := true }, [DisplayCommand.updateBatteryCharging])
  | .batteryLevel level =>
      ({ s with is_charging := false, battery_percent := level },
        [DisplayCommand.updateBatteryPercentage level])
  | .toggleDisplayMode =>
      if s.last_sensor_data.isSome then
        (s.toggle_display_mode, [DisplayCommand.toggleMode])
      else (s, [])

/-- Run the orchestrator event loop over a list of events, collecting every
display command sent, in order. -/
def runOrch (l : List Event) (s : SystemState) : SystemState × List DisplayCommand :=
  match l with
  | [] => (s, [])
  | e :: rest =>
      let r := process_event e s
      let next := runOrch rest r.1
      (next.1, r.2 ++ next.2)

/-- Whether an event is a `SensorData` event. -/
def Event.isSensorData : Event → Bool
  | .sensorData _ _ _ _ _ _ _ => true
  | _ => false

/-! ## Sensor task iteration (`src/sensor.rs`) -/

/-- `Aht21Readings`. -/
structure Aht21Readings where
  raw_temperature : ℚ
  display_temperature : ℚ
  raw_humidity : ℚ
  calibrated_humidity : ℚ
deriving Repr, DecidableEq

/-- `Ens160Readings`. -/
structure Ens160Readings where
  co2 : ℚ
  etoh : ℚ
  air_quality : AirQualityIndex
deriving Repr, DecidableEq

/-- Rust's saturating `f32 as u16` cast. -/
def q_to_u16 (x : ℚ) : Nat := (max 0 (min ⌊x⌋ 65535)).toNat

/-- The `SensorData` event as constructed in `handle_sensor_iteration`. -/
inductive SensorEvent where
  | sensorData (temperature humidity : ℚ) (co2 etoh : Nat) (air_quality : AirQualityIndex)
deriving Repr, DecidableEq

/-- Outcome of one sensor-loop iteration: the success flag returned, the
events sent, whether `read_ens160` was attempted, and the updated previous
compensation readings. -/
structure SensorIterOut where
  success : Bool
  events : List SensorEvent
  ens160_read : Bool
  prev_temp : ℚ
  prev_humidity : ℚ
deriving Repr, DecidableEq

/-- `handle_sensor_iteration`: the AHT21 read result, the success of the
ENS160 compensation write, and the ENS160 read result are inputs (fallible
hardware I/O modelled as `Option`/`Bool`); a failed compensation write returns
before `read_ens160` is ever called. -/
def handle_sensor_iteration (aht21_result : Option Aht21Readings) (comp_ok : Bool)
    (ens160_result : Option Ens160Readings) (prev_temp prev_humidity : ℚ) : SensorIterOut :=
  let pt := aht21_result.elim prev_temp (fun r => r.raw_temperature)
  let ph := aht21_result.elim prev_humidity (fun r => r.calibrated_humidity)
  if comp_ok = false then
    ⟨false, [], false, pt, ph⟩
  else
    match ens160_result, aht21_result with
    | some e, some a =>
        ⟨true,
          [SensorEvent.sensorData a.display_temperature a.calibrated_humidity
            (q_to_u16 e.co2) (q_to_u16 e.etoh) e.air_quality],
          true, pt, ph⟩
    | none, none => ⟨false, [], true, pt, ph⟩
    | none, some _ => ⟨false, [], true, pt, ph⟩
    | some _, none => ⟨false, [], true, pt, ph⟩

/-- The hardware I/O outcomes driving one sensor-loop iteration. -/
structure SensorIterInput where
  aht21_result : Option Aht21Readings
  comp_ok : Bool
  ens160_result : Option Ens160Readings

/-- The `loop` body of `sensor_task`: every iteration runs, reports success or
failure to the health supervisor, and continues with the next cycle; per
iteration the list records `(reported success, events sent)`. -/
def sensor_task_run (inputs : List SensorIterInput) (prev_temp prev_humidity : ℚ) :
    List (Bool × List SensorEvent) :=
  match inputs with
  | [] => []
  | i :: rest =>
      let out := handle_sensor_iteration i.aht21_result i.comp_ok i.ens160_result
        prev_temp prev_humidity
      (out.success, out.events) :: sensor_task_run rest out.prev_temp out.prev_humidity

/-! ## Derived definitions for the humidity-calibrator claims -/

/-- The window update performed by each `detect_rapid_change` call: a full
ring buffer first drops its oldest slot, then the new reading is pushed. -/
def pushReading (raw_humidity : ℚ) (w : List ℚ) : List ℚ :=
  let kept := if w.length ≥ CHANGE_HISTORY_SIZE then w.drop 1 else w
  if kept.length < CHANGE_HISTORY_SIZE then kept ++ [raw_humidity] else kept

/-- Feed a list of `(temperature, raw_humidity)` measurements to a calibrator
in a given state. -/
def runCalibSteps (s : CalibState) (ms : List (ℚ × ℚ)) : CalibState :=
  ms.foldl (fun s m => add_measurement m.1 m.2 s) s

/-- Failing input for claim C1: a rapid change from 50 %RH to 60 %RH followed
by ten stable samples at the shifted level, every one at least 8 %RH away
from the stored pre-change baseline of 50 %RH. -/
def c1_failing_trace : List (ℚ × ℚ) :=
  [(25, 50), (25, 50)] ++ List.replicate 10 ((25 : ℚ), (60 : ℚ))

/-- Counterexample input for claim C3, first 110 measurements: 104 stable
readings at 70 %RH (99 long-term-stable counts), a rapid change to 80 %RH,
then stabilisation at 76 and 72 %RH; the calibrator is still flagged in the
rapid-change period afterwards. -/
def c3_flagged_prefix : List (ℚ × ℚ) :=
  List.replicate 104 ((25 : ℚ), (70 : ℚ)) ++ [(25, 80), (25, 76)] ++
    List.replicate 4 ((25 : ℚ), (72 : ℚ))

/-- Calibrator state after 40 measurements of `c3_flagged_prefix`. -/
def c3_state_40 : CalibState :=
  ⟨[70, 70, 70], 0, some 70, 5, 80, 79, false, none, 0, false, 0, 35⟩

/-- Calibrator state after 80 measurements of `c3_flagged_prefix`. -/
def c3_state_80 : CalibState :=
  ⟨[70, 70, 70], 0, some 70, 5, 160, 159, false, none, 0, false, 0, 75⟩

/-- Calibrator state after all 110 measurements of `c3_flagged_prefix`. -/
def c3_state_110 : CalibState :=
  ⟨[72, 72, 72], 0, none, 0, 220, 10, true, some 70, 0, false, 0, 99⟩

end AirQuality

namespace AirQuality

/-! ## Claim C8 -/

/-- Claim C8: in one sensor-loop iteration, exactly one `SensorData` event is
emitted iff the AHT21 read, the ENS160 compensation write, and the ENS160
air-quality read all succeed; a failed compensation write fails the whole
iteration without reading the ENS160; an iteration reports failure exactly
when it emits no event; and the task loop processes every subsequent cycle
rather than terminating. -/
theorem c8_sensor_iteration_failure_handling :
    (∀ (a : Option Aht21Readings) (c : Bool) (e : Option Ens160Readings) (pt ph : ℚ),
      ((handle_sensor_iteration a c e pt ph).events.length = 1 ↔
        (a.isSome = true ∧ c = true ∧ e.isSome = true))
      ∧ (c = false →
          (handle_sensor_iteration a c e pt ph).events = [] ∧
          (handle_sensor_iteration a c e pt ph).ens160_read = false ∧
          (handle_sensor_iteration a c e pt ph).success = false)
      ∧ ((handle_sensor_iteration a c e pt ph).success = false ↔
          (handle_sensor_iteration a c e pt ph).events = []))
    ∧ (∀ (inputs : List SensorIterInput) (pt ph : ℚ),
        (sensor_task_run inputs pt ph).length = inputs.length) := by
  constructor
  · intro a c e pt ph
    refine ⟨?_, ?_, ?_⟩ <;>
      cases a <;> cases c <;> cases e <;> simp [handle_sensor_iteration]
  · intro inputs
    induction inputs with
    | nil => intro pt ph; rfl
    | cons i rest ih => intro pt ph; simp [sensor_task_run, ih]

/-- Witness for C8: concrete iteration with a failed compensation write. -/
theorem c8_sensor_iteration_failure_handling_witness :
    (handle_sensor_iteration (some ⟨25, 43/2, 50, 50⟩) false
        (some ⟨400, 10, AirQualityIndex.good⟩) 25 50).events = [] ∧
    (handle_sensor_iteration (some ⟨25, 43/2, 50, 50⟩) false
        (some ⟨400, 10, AirQualityIndex.good⟩) 25 50).ens160_read = false ∧
    (handle_sensor_iteration (some ⟨25, 43/2, 50, 50⟩) false
        (some ⟨400, 10, AirQualityIndex.good⟩) 25 50).success = false :=
  (c8_sensor_iteration_failure_handling.1 (some ⟨25, 43/2, 50, 50⟩) false
    (some ⟨400, 10, AirQualityIndex.good⟩) 25 50).2.1 rfl

end AirQuality

namespace AirQuality

/-! ## Claim C2 -/

theorem c2_read_ens160_selects_closest_to_median :
    (∀ r1 r2 r3 : ℚ × AirQualityIndex,
      (read_ens160_result r1 r2 r3).2 =
        closest_first_spec [r1, r2, r3] (median3 r1.1 r2.1 r3.1))
    ∧ read_ens160_result (650, AirQualityIndex.excellent) (700, AirQualityIndex.good)
        (900, AirQualityIndex.moderate) = (700, some AirQualityIndex.good) := by
  constructor
  · intro r1 r2 r3
    obtain ⟨c1, a1⟩ := r1
    obtain ⟨c2, a2⟩ := r2
    obtain ⟨c3, a3⟩ := r3
    simp only [read_ens160_result, read_ens160_select, closest_first_spec, List.foldl,
      List.find?, List.all_cons, List.all_nil, List.map_cons, Option.map_some]
    set m := median3 c1 c2 c3 with hm
    rcases le_or_lt |c1 - m| |c2 - m| with h12 | h12
    · rcases le_or_lt |c1 - m| |c3 - m| with h13 | h13
      · have hn12 : ¬(|c1 - m| > |c2 - m|) := not_lt.mpr h12
        have hn13 : ¬(|c1 - m| > |c3 - m|) := not_lt.mpr h13
        simp [hn12, hn13, h12, h13]
      · have hn12 : ¬(|c1 - m| > |c2 - m|) := not_lt.mpr h12
        have hn13 : ¬(|c1 - m| ≤ |c3 - m|) := not_le.mpr h13
        have h31 : |c3 - m| ≤ |c1 - m| := le_of_lt h13
        have hn23 : ¬(|c2 - m| ≤ |c3 - m|) := not_le.mpr (lt_of_lt_of_le h13 h12)
        have h32 : |c3 - m| ≤ |c2 - m| := le_of_lt (lt_of_lt_of_le h13 h12)
        simp [hn12, hn13, h31, hn23, h32, h13]
    · rcases le_or_lt |c2 - m| |c3 - m| with h23 | h23
      · have hn12 : ¬(|c1 - m| ≤ |c2 - m|) := not_le.mpr h12
        have h21 : |c2 - m| ≤ |c1 - m| := le_of_lt h12
        have hn23 : ¬(|c2 - m| > |c3 - m|) := not_lt.mpr h23
        simp [h12, hn12, h21, hn23, h23]
      · have hn12 : ¬(|c1 - m| ≤ |c2 - m|) := not_le.mpr h12
        have hn23 : ¬(|c2 - m| ≤ |c3 - m|) := not_le.mpr h23
        have h31 : |c3 - m| ≤ |c1 - m| := le_of_lt (lt_trans h23 h12)
        have h32 : |c3 - m| ≤ |c2 - m| := le_of_lt h23
        simp [h12, hn12, hn23, h31, h32, h23]
  · unfold read_ens160_result read_ens160_select median3
    norm_num [List.foldl, max_def, min_def, abs_eq_max_neg]

end AirQuality

namespace AirQuality

/-! ## Claims C7 and C9 -/

/-- While no `SensorData` event has arrived, the orchestrator keeps
`last_sensor_data` empty and never sends `ToggleMode`. -/
theorem runOrch_no_sensor_data (l : List Event) :
    ∀ s : SystemState, (∀ e ∈ l, e.isSensorData = false) → s.last_sensor_data = none →
      DisplayCommand.toggleMode ∉ (runOrch l s).2 ∧
        (runOrch l s).1.last_sensor_data = none := by
  induction l with
  | nil => intro s _ h0; simpa [runOrch] using h0
  | cons e rest ih =>
    intro s hl h0
    have he := hl e (List.mem_cons_self _ _)
    have hrest : ∀ x ∈ rest, x.isSensorData = false :=
      fun x hx => hl x (List.mem_cons_of_mem _ hx)
    cases e with
    | sensorData t rt h rh co2 etoh aq => simp [Event.isSensorData] at he
    | batteryCharging =>
        obtain ⟨ha, hb⟩ := ih { s with is_charging := true } hrest h0
        constructor
        · simp [runOrch, process_event, List.mem_append, ha]
        · simpa [runOrch, process_event] using hb
    | batteryLevel level =>
        obtain ⟨ha, hb⟩ := ih { s with is_charging := false, battery_percent := level } hrest h0
        constructor
        · simp [runOrch, process_event, List.mem_append, ha]
        · simpa [runOrch, process_event] using hb
    | toggleDisplayMode =>
        obtain ⟨ha, hb⟩ := ih s hrest h0
        constructor
        · simp [runOrch, process_event, h0, ha]
        · simpa [runOrch, process_event, h0] using hb

/-- Claim C7: a `ToggleDisplayMode` event before any `SensorData` event
produces no display command and leaves the state unchanged; after a
`SensorData` event it produces exactly one `ToggleMode` command and flips the
stored display mode exactly once; hence the orchestrator never emits
`ToggleMode` without a prior `SensorData` event. -/
theorem c7_toggle_mode_requires_sensor_data :
    (∀ s : SystemState, s.last_sensor_data = none →
        process_event Event.toggleDisplayMode s = (s, []))
    ∧ (∀ (s : SystemState) (d : SensorData), s.last_sensor_data = some d →
        process_event Event.toggleDisplayMode s =
          (s.toggle_display_mode, [DisplayCommand.toggleMode])
        ∧ s.toggle_display_mode.display_mode ≠ s.display_mode)
    ∧ (∀ l : List Event, (∀ e ∈ l, e.isSensorData = false) →
        DisplayCommand.toggleMode ∉ (runOrch l SystemState.new).2
        ∧ (runOrch l SystemState.new).1.last_sensor_data = none) := by
  refine ⟨?_, ?_, ?_⟩
  · intro s h0; simp [process_event, h0]
  · intro s d hd
    refine ⟨by simp [process_event, hd], ?_⟩
    cases hm : s.display_mode <;> simp [SystemState.toggle_display_mode, hm]
  · intro l hl
    exact runOrch_no_sensor_data l SystemState.new hl rfl

/-- Witness for C7: toggling from the initial state emits nothing, and a
battery event followed by a toggle still emits no `ToggleMode`. -/
theorem c7_toggle_mode_requires_sensor_data_witness :
    process_event Event.toggleDisplayMode SystemState.new = (SystemState.new, []) ∧
    DisplayCommand.toggleMode ∉
      (runOrch [Event.batteryCharging, Event.toggleDisplayMode] SystemState.new).2 :=
  ⟨c7_toggle_mode_requires_sensor_data.1 SystemState.new rfl,
    (c7_toggle_mode_requires_sensor_data.2.2
      [Event.batteryCharging, Event.toggleDisplayMode] (by decide)).1⟩

/-- The CO2 history never grows beyond 10 entries. -/
theorem co2_history_len_le (l : List Event) :
    ∀ s : SystemState, s.co2_history.length ≤ 10 →
      (runOrch l s).1.co2_history.length ≤ 10 := by
  induction l with
  | nil => intro s h; simpa [runOrch] using h
  | cons e rest ih =>
    intro s h
    simp only [runOrch]
    apply ih
    cases e with
    | sensorData t rt hh rh co2 etoh aq =>
        simp only [process_event, SystemState.add_co2_measurement,
          SystemState.set_last_sensor_data]
        split_ifs <;> simp_all <;> omega
    | batteryCharging => simpa [process_event] using h
    | batteryLevel level => simpa [process_event] using h
    | toggleDisplayMode =>
        by_cases hs : s.last_sensor_data.isSome <;>
          simpa [process_event, hs, SystemState.toggle_display_mode] using h

/-- Claim C9: every `SensorData` event processed by the orchestrator is stored
as the last known reading, its CO2 value is appended as the newest entry of
the CO2 history — which never exceeds 10 entries and evicts its oldest entry
exactly when already full, keeping the rest in order — and exactly one
matching `SensorData` display command is forwarded. -/
theorem c9_sensor_data_event_processing :
    (∀ l : List Event, (runOrch l SystemState.new).1.co2_history.length ≤ 10)
    ∧ (∀ (s : SystemState) (t rt h rh : ℚ) (co2 etoh : Nat) (aq : AirQualityIndex),
        s.co2_history.length ≤ 10 →
        process_event (Event.sensorData t rt h rh co2 etoh aq) s =
          ({ s with
              co2_history :=
                (if s.co2_history.length = 10 then s.co2_history.tail else s.co2_history)
                  ++ [co2],
              last_sensor_data := some ⟨t, rt, h, rh, co2, etoh, aq⟩ },
            [DisplayCommand.sensorData t rt h rh co2 etoh aq])) := by
  constructor
  · intro l
    exact co2_history_len_le l SystemState.new (by simp [SystemState.new])
  · intro s t rt h rh co2 etoh aq hlen
    obtain ⟨bp, ic, lsd, hist, dm⟩ := s
    dsimp only at hlen
    simp only [process_event, SystemState.add_co2_measurement,
      SystemState.set_last_sensor_data]
    by_cases h10 : hist.length = 10
    · have hge : hist.length ≥ 10 := by omega
      have hk : (hist.drop 1).length < 10 := by
        simp only [List.length_drop]; omega
      simp [hge, hk, h10, List.drop_one]
    · have hlt : ¬(hist.length ≥ 10) := by omega
      have hk : hist.length < 10 := by omega
      simp [hlt, hk, h10]

/-- Witness for C9: processing a sensor event from the initial state appends
the CO2 value without eviction. -/
theorem c9_sensor_data_event_processing_witness :
    process_event (Event.sensorData 22 (51/2) 50 48 640 17 AirQualityIndex.excellent)
        SystemState.new =
      ({ SystemState.new with
          co2_history := [640],
          last_sensor_data := some ⟨22, 51/2, 50, 48, 640, 17, AirQualityIndex.excellent⟩ },
        [DisplayCommand.sensorData 22 (51/2) 50 48 640 17 AirQualityIndex.excellent]) := by
  have h := c9_sensor_data_event_processing.2 SystemState.new 22 (51/2) 50 48 640 17
    AirQualityIndex.excellent (by simp [SystemState.new])
  simpa [SystemState.new] using h

end AirQuality

namespace AirQuality

/-! ## Claims C5 and C6 -/

/-- `update_overall_health` with the Vsys task unhealthy: tasks unchanged, the
aggregate goes (or stays) unhealthy, and an armed deadline is kept while an
unarmed one is armed to `now + COUNTDOWN_TIMEOUT`. -/
theorem update_overall_health_vsys_down (now : Nat) (s : SystemHealth)
    (hv : s.tasks WTaskId.vsys = false) :
    (update_overall_health now s).tasks = s.tasks ∧
    (update_overall_health now s).all_healthy = false ∧
    (update_overall_health now s).countdown_deadline =
      (match s.countdown_deadline with
       | some d => some d
       | none => some (now + COUNTDOWN_TIMEOUT)) := by
  have hall : allWTasks.all (fun t => s.tasks t) = false := by
    simp [allWTasks, hv]
  cases hd : s.countdown_deadline with
  | none => refine ⟨?_, ?_, ?_⟩ <;> simp [update_overall_health, hall, hd]
  | some d => refine ⟨?_, ?_, ?_⟩ <;> simp [update_overall_health, hall, hd]

/-- The `vsysDownVector` marks every task except Vsys healthy. -/
theorem vsysDownVector_eq_true {t : WTaskId} (h : t ≠ WTaskId.vsys) :
    vsysDownVector t = true := by
  cases t <;> first | rfl | exact absurd rfl h

/-- One allowed operation of the claim-C5 scenario: the task vector stays
fixed, an armed deadline is never re-armed, an unarmed one is armed. -/
theorem vsys_down_wstep (now : Nat) (op : WOp) (s : SystemHealth)
    (hop : holdsVsysDown op) (hv : ∀ t, s.tasks t = vsysDownVector t) :
    (∀ t, (wstep now op s).tasks t = vsysDownVector t)
    ∧ (wstep now op s).countdown_deadline =
        (match s.countdown_deadline with
         | some d => some d
         | none => some (now + COUNTDOWN_TIMEOUT)) := by
  have hvv : s.tasks WTaskId.vsys = false := by
    simpa [vsysDownVector] using hv WTaskId.vsys
  cases op with
  | report_success tid =>
      have htid : tid ≠ WTaskId.vsys := hop
      have h1v : (if WTaskId.vsys = tid then true else s.tasks WTaskId.vsys) = false := by
        rw [if_neg (fun h => htid h.symm)]; exact hvv
      obtain ⟨ht, _, hdl⟩ := update_overall_health_vsys_down now
        { s with tasks := fun t => if t = tid then true else s.tasks t } h1v
      refine ⟨?_, hdl⟩
      intro u
      have hu := congrFun ht u
      rw [show (wstep now (WOp.report_success tid) s).tasks u =
        (if u = tid then true else s.tasks u) from hu]
      by_cases hteq : u = tid
      · subst hteq
        rw [if_pos rfl, vsysDownVector_eq_true htid]
      · rw [if_neg hteq]; exact hv u
  | report_failure tid =>
      have htid : tid = WTaskId.vsys := hop
      subst htid
      have h1v : (if WTaskId.vsys = WTaskId.vsys then false else s.tasks WTaskId.vsys)
          = false := by rw [if_pos rfl]
      obtain ⟨ht, _, hdl⟩ := update_overall_health_vsys_down now
        { s with tasks := fun t => if t = WTaskId.vsys then false else s.tasks t } h1v
      refine ⟨?_, hdl⟩
      intro u
      have hu := congrFun ht u
      rw [show (wstep now (WOp.report_failure WTaskId.vsys) s).tasks u =
        (if u = WTaskId.vsys then false else s.tasks u) from hu]
      by_cases hteq : u = WTaskId.vsys
      · subst hteq; rw [if_pos rfl]; simp [vsysDownVector]
      · rw [if_neg hteq]; exact hv u
  | tick =>
      obtain ⟨ht, hah, hdl⟩ := update_overall_health_vsys_down now s hvv
      have hstep : wstep now WOp.tick s = update_overall_health now s := by
        simp [wstep, watchdog_check, hah]
      rw [hstep]
      refine ⟨?_, hdl⟩
      intro u
      rw [show (update_overall_health now s).tasks u = s.tasks u from congrFun ht u]
      exact hv u

/-- Running any sequence of allowed operations of the claim-C5 scenario keeps
the task vector fixed and never re-arms an armed deadline. -/
theorem vsys_down_wrun (l : List (Nat × WOp)) :
    ∀ s : SystemHealth, (∀ p ∈ l, holdsVsysDown p.2) →
      (∀ t, s.tasks t = vsysDownVector t) →
      (∀ t, (wrun l s).tasks t = vsysDownVector t)
      ∧ (∀ d, s.countdown_deadline = some d → (wrun l s).countdown_deadline = some d) := by
  induction l with
  | nil => intro s _ hv; exact ⟨hv, fun d hd => by simpa [wrun] using hd⟩
  | cons p rest ih =>
    intro s hl hv
    have hp : holdsVsysDown p.2 := hl p (List.mem_cons_self _ _)
    have hrest : ∀ q ∈ rest, holdsVsysDown q.2 := fun q hq => hl q (List.mem_cons_of_mem _ hq)
    obtain ⟨ht, hdl⟩ := vsys_down_wstep p.1 p.2 s hp hv
    have hrun : wrun (p :: rest) s = wrun rest (wstep p.1 p.2 s) := rfl
    obtain ⟨iht, ihd⟩ := ih (wstep p.1 p.2 s) hrest ht
    refine ⟨by rw [hrun]; exact iht, ?_⟩
    intro d hd
    rw [hrun]
    exact ihd d (by rw [hdl, hd])

/-- Claim C5: with the task set `{Sensor, Display, Orchestrator, ModeSwitch
healthy; Vsys unhealthy}` held constant across health reports and watchdog
ticks, an armed countdown deadline is never re-armed (in particular never to a
later instant), `should_trigger_reset` is true at every check from the armed
deadline on, and from an unarmed state any single allowed operation arms the
deadline to `now + 900` seconds. -/
theorem c5_persistent_vsys_failure_reset :
    ∀ (s : SystemHealth) (l : List (Nat × WOp)),
      (∀ t, s.tasks t = vsysDownVector t) →
      (∀ p ∈ l, holdsVsysDown p.2) →
      (∀ t, (wrun l s).tasks t = vsysDownVector t)
      ∧ (∀ d, s.countdown_deadline = some d →
          (wrun l s).countdown_deadline = some d
          ∧ ∀ now, d ≤ now → should_trigger_reset now (wrun l s) = true)
      ∧ (s.countdown_deadline = none →
          ∀ (now : Nat) (op : WOp), holdsVsysDown op →
            (wstep now op s).countdown_deadline = some (now + COUNTDOWN_TIMEOUT)) := by
  intro s l hv hl
  obtain ⟨ht, hdl⟩ := vsys_down_wrun l s hl hv
  refine ⟨ht, ?_, ?_⟩
  · intro d hd
    refine ⟨hdl d hd, ?_⟩
    intro now hle
    simp [should_trigger_reset, hdl d hd, hle]
  · intro hnone now op hop
    obtain ⟨_, hstep⟩ := vsys_down_wstep now op s hop hv
    rw [hstep, hnone]

/-- Witness for C5: one tick from an armed state keeps the deadline, the reset
fires at the deadline, and a report from an unarmed state arms it. -/
theorem c5_persistent_vsys_failure_reset_witness :
    (wrun [(5, WOp.tick)] ⟨vsysDownVector, false, some 1000⟩).countdown_deadline = some 1000
    ∧ should_trigger_reset 1000 (wrun [(5, WOp.tick)] ⟨vsysDownVector, false, some 1000⟩) = true
    ∧ (wstep 7 (WOp.report_failure WTaskId.vsys)
        ⟨vsysDownVector, false, none⟩).countdown_deadline = some (7 + COUNTDOWN_TIMEOUT) := by
  have h := c5_persistent_vsys_failure_reset ⟨vsysDownVector, false, some 1000⟩
    [(5, WOp.tick)] (fun t => rfl) (by decide)
  have h2 := c5_persistent_vsys_failure_reset ⟨vsysDownVector, false, none⟩
    [] (fun t => rfl) (by simp)
  obtain ⟨hdl, htr⟩ := h.2.1 1000 rfl
  exact ⟨hdl, htr 1000 le_rfl, h2.2.2 rfl 7 (WOp.report_failure WTaskId.vsys) rfl⟩

/-- `update_overall_health` never modifies the task vector. -/
theorem update_overall_health_tasks (now : Nat) (s : SystemHealth) :
    (update_overall_health now s).tasks = s.tasks := by
  simp only [update_overall_health]
  split_ifs <;> rfl

/-- `reset_countdown` never modifies the task vector. -/
theorem reset_countdown_tasks (now : Nat) (s : SystemHealth) :
    (reset_countdown now s).tasks = s.tasks := by
  simp only [reset_countdown]
  split_ifs <;> rfl

/-- A watchdog health check never modifies the task vector. -/
theorem watchdog_check_tasks (now : Nat) (s : SystemHealth) :
    ((watchdog_check now s).2).tasks = s.tasks := by
  simp only [watchdog_check]
  split_ifs <;> simp [reset_countdown_tasks, update_overall_health_tasks]

/-- Without failure reports, a healthy task stays healthy. -/
theorem no_fail_wrun_tasks_mono (l : List (Nat × WOp)) :
    ∀ s : SystemHealth, (∀ p ∈ l, ∀ task_id, p.2 ≠ WOp.report_failure task_id) →
      ∀ tid, s.tasks tid = true → (wrun l s).tasks tid = true := by
  induction l with
  | nil => intro s _ tid h; simpa [wrun] using h
  | cons p rest ih =>
    intro s hl tid h
    have hrest : ∀ q ∈ rest, ∀ task_id, q.2 ≠ WOp.report_failure task_id :=
      fun q hq => hl q (List.mem_cons_of_mem _ hq)
    have hrun : wrun (p :: rest) s = wrun rest (wstep p.1 p.2 s) := rfl
    rw [hrun]
    apply ih _ hrest
    cases hop : p.2 with
    | report_success tid2 =>
        show (set_task_succeeded p.1 tid2 s).tasks tid = true
        rw [show (set_task_succeeded p.1 tid2 s).tasks =
          fun t => if t = tid2 then true else s.tasks t from update_overall_health_tasks _ _]
        show (if tid = tid2 then true else s.tasks tid) = true
        by_cases hteq : tid = tid2
        · rw [if_pos hteq]
        · rw [if_neg hteq]; exact h
    | report_failure tid2 => exact absurd hop (hl p (List.mem_cons_self _ _) tid2)
    | tick =>
        show ((watchdog_check p.1 s).2).tasks tid = true
        rw [watchdog_check_tasks]
        exact h
  
/-- A task with a success report in a failure-free run ends up healthy. -/
theorem success_gives_healthy (l : List (Nat × WOp)) :
    ∀ s : SystemHealth, (∀ p ∈ l, ∀ task_id, p.2 ≠ WOp.report_failure task_id) →
      ∀ (tid : WTaskId) (t' : Nat), (t', WOp.report_success tid) ∈ l →
        (wrun l s).tasks tid = true := by
  induction l with
  | nil => intro s _ tid t' h; simp at h
  | cons p rest ih =>
    intro s hl tid t' hmem
    have hrest : ∀ q ∈ rest, ∀ task_id, q.2 ≠ WOp.report_failure task_id :=
      fun q hq => hl q (List.mem_cons_of_mem _ hq)
    have hrun : wrun (p :: rest) s = wrun rest (wstep p.1 p.2 s) := rfl
    rcases List.mem_cons.mp hmem with heq | hmem2
    · rw [hrun]
      apply no_fail_wrun_tasks_mono rest _ hrest
      rw [← heq]
      show (set_task_succeeded t' tid s).tasks tid = true
      rw [show (set_task_succeeded t' tid s).tasks =
        fun t => if t = tid then true else s.tasks t from update_overall_health_tasks _ _]
      show (if tid = tid then true else s.tasks tid) = true
      rw [if_pos rfl]
    · rw [hrun]
      exact ih _ hrest tid t' hmem2

/-- Claim C6: after any failure-free operation sequence in which all five
tasks have reported success, a watchdog health check re-arms the countdown
deadline to `now + 900` seconds and does not trigger the hardware reset; hence
`should_trigger_reset` is never true at any health check of such an
execution. -/
theorem c6_all_healthy_watchdog_never_fires :
    ∀ (l : List (Nat × WOp)) (now : Nat),
      (∀ p ∈ l, ∀ task_id, p.2 ≠ WOp.report_failure task_id) →
      (∀ task_id : WTaskId, ∃ t', (t', WOp.report_success task_id) ∈ l) →
      (watchdog_check now (wrun l SystemHealth.new)).2.countdown_deadline =
          some (now + COUNTDOWN_TIMEOUT)
      ∧ (watchdog_check now (wrun l SystemHealth.new)).1 = false := by
  intro l now hnf hsucc
  have hall : ∀ tid, (wrun l SystemHealth.new).tasks tid = true := by
    intro tid
    obtain ⟨t', ht⟩ := hsucc tid
    exact success_gives_healthy l SystemHealth.new hnf tid t' ht
  have hb : allWTasks.all (fun t => (wrun l SystemHealth.new).tasks t) = true := by
    simp [allWTasks, hall]
  have hfire : ¬(now + COUNTDOWN_TIMEOUT ≤ now) := by
    simp [COUNTDOWN_TIMEOUT]
  cases hw : (wrun l SystemHealth.new).all_healthy with
  | false =>
      constructor <;>
        simp [watchdog_check, update_overall_health, reset_countdown, hb, hw,
          should_trigger_reset, hfire]
  | true =>
      constructor <;>
        simp [watchdog_check, update_overall_health, reset_countdown, hb, hw,
          should_trigger_reset, hfire]

/-- Witness for C6: all five tasks report success, then a check at time 3. -/
theorem c6_all_healthy_watchdog_never_fires_witness :
    (watchdog_check 3 (wrun
        [(0, WOp.report_success WTaskId.sensor), (0, WOp.report_success WTaskId.display),
         (1, WOp.report_success WTaskId.vsys), (2, WOp.report_success WTaskId.orchestrator),
         (2, WOp.report_success WTaskId.mode_switch)]
        SystemHealth.new)).2.countdown_deadline = some (3 + COUNTDOWN_TIMEOUT)
    ∧ (watchdog_check 3 (wrun
        [(0, WOp.report_success WTaskId.sensor), (0, WOp.report_success WTaskId.display),
         (1, WOp.report_success WTaskId.vsys), (2, WOp.report_success WTaskId.orchestrator),
         (2, WOp.report_success WTaskId.mode_switch)]
        SystemHealth.new)).1 = false := by
  apply c6_all_healthy_watchdog_never_fires
  · intro p hp task_id
    fin_cases hp <;> simp
  · intro task_id
    cases task_id
    · exact ⟨0, by decide⟩
    · exact ⟨0, by decide⟩
    · exact ⟨1, by decide⟩
    · exact ⟨2, by decide⟩
    · exact ⟨2, by decide⟩

end AirQuality

namespace AirQuality

/-! ## Symbolic lemmas about the humidity calibrator -/

/-- Each detector pass updates the window exactly by `pushReading` and bumps
the reading-sequence counter by one. -/
theorem detect_window_seq (r : ℚ) (s : CalibState) :
    ((detect_rapid_change r s).2).recent_readings = pushReading r s.recent_readings
    ∧ ((detect_rapid_change r s).2).reading_sequence = s.reading_sequence + 1 := by
  rcases hpb : s.pre_change_baseline with _ | b <;>
    simp only [detect_rapid_change, pushReading, hpb] <;>
    split_ifs <;> simp_all

/-- The detector never touches the long-term statistical offset and touches
the short-term offset only to reset it to zero. -/
theorem detect_offsets (r : ℚ) (s : CalibState) :
    ((detect_rapid_change r s).2).long_term_statistical_offset
        = s.long_term_statistical_offset
    ∧ (((detect_rapid_change r s).2).humidity_offset = s.humidity_offset
        ∨ ((detect_rapid_change r s).2).humidity_offset = 0) := by
  rcases hpb : s.pre_change_baseline with _ | b <;>
    simp only [detect_rapid_change, hpb] <;>
    split_ifs <;> simp_all

/-- A detector pass whose stable counter stays below the recovery threshold
cannot take the baseline re-establishment branch: counts, baseline and
offsets are preserved and the stable counter grows by at most one. -/
theorem detect_no_exit (r : ℚ) (s : CalibState)
    (h : s.stable_reading_count + 1 < MIN_STABLE_READINGS_AFTER_RAPID_CHANGE) :
    ((detect_rapid_change r s).2).baseline_reading_count = s.baseline_reading_count
    ∧ ((detect_rapid_change r s).2).current_baseline = s.current_baseline
    ∧ ((detect_rapid_change r s).2).humidity_offset = s.humidity_offset
    ∧ ((detect_rapid_change r s).2).stable_reading_count ≤ s.stable_reading_count + 1
    ∧ ((detect_rapid_change r s).2).long_term_statistical_offset
        = s.long_term_statistical_offset := by
  rcases hpb : s.pre_change_baseline with _ | b <;>
    simp only [detect_rapid_change, hpb, MIN_STABLE_READINGS_AFTER_RAPID_CHANGE] at h ⊢ <;>
    split_ifs <;> simp_all <;> omega

/-- `handle_rapid_change` relates to the detector pass it performs: windows
and counters agree, the long-term offset is untouched, and the short-term
offset is at most reset to zero. -/
theorem handle_fields (r : ℚ) (s : CalibState) :
    ((handle_rapid_change r s).2).long_term_statistical_offset
        = ((detect_rapid_change r s).2).long_term_statistical_offset
    ∧ (((handle_rapid_change r s).2).humidity_offset
          = ((detect_rapid_change r s).2).humidity_offset
        ∨ ((handle_rapid_change r s).2).humidity_offset = 0)
    ∧ ((handle_rapid_change r s).2).recent_readings
        = ((detect_rapid_change r s).2).recent_readings
    ∧ ((handle_rapid_change r s).2).reading_sequence
        = ((detect_rapid_change r s).2).reading_sequence
    ∧ ((handle_rapid_change r s).2).in_rapid_change_period
        = ((detect_rapid_change r s).2).in_rapid_change_period := by
  simp only [handle_rapid_change, reset_calibration_for_rapid_change]
  split_ifs <;> simp

/-- `update_baseline_establishment` during the establishing phase returns
`true`, bumps the baseline count, and leaves all other tracked fields. -/
theorem establishment_fields (r : ℚ) (s : CalibState)
    (h : s.baseline_reading_count < INITIAL_BASELINE_READINGS) :
    (update_baseline_establishment r s).1 = true
    ∧ ((update_baseline_establishment r s).2).baseline_reading_count
        = s.baseline_reading_count + 1
    ∧ ((update_baseline_establishment r s).2).humidity_offset = s.humidity_offset
    ∧ ((update_baseline_establishment r s).2).long_term_statistical_offset
        = s.long_term_statistical_offset
    ∧ ((update_baseline_establishment r s).2).stable_reading_count
        = s.stable_reading_count := by
  have hn : ¬(s.baseline_reading_count ≥ INITIAL_BASELINE_READINGS) := by omega
  rcases hcb : s.current_baseline with _ | b <;>
    simp [update_baseline_establishment, hn, hcb]

/-- `update_baseline_establishment` never touches window or counter. -/
theorem establishment_window_seq (r : ℚ) (s : CalibState) :
    ((update_baseline_establishment r s).2).recent_readings = s.recent_readings
    ∧ ((update_baseline_establishment r s).2).reading_sequence = s.reading_sequence := by
  rcases hcb : s.current_baseline with _ | b <;>
    simp only [update_baseline_establishment, hcb] <;> split_ifs <;> simp

/-- `update_long_term_stability` changes only the long-term stable counter. -/
theorem stability_fields (drift : ℚ) (s : CalibState) :
    ((update_long_term_stability drift s)).recent_readings = s.recent_readings
    ∧ ((update_long_term_stability drift s)).reading_sequence = s.reading_sequence
    ∧ ((update_long_term_stability drift s)).humidity_offset = s.humidity_offset
    ∧ ((update_long_term_stability drift s)).long_term_statistical_offset
        = s.long_term_statistical_offset := by
  simp only [update_long_term_stability]
  split_ifs <;> simp

/-- `apply_long_term_drift_correction` changes only the long-term offset. -/
theorem longterm_fields (temperature raw_humidity : ℚ) (s : CalibState) :
    ((apply_long_term_drift_correction temperature raw_humidity s)).recent_readings
        = s.recent_readings
    ∧ ((apply_long_term_drift_correction temperature raw_humidity s)).reading_sequence
        = s.reading_sequence
    ∧ ((apply_long_term_drift_correction temperature raw_humidity s)).humidity_offset
        = s.humidity_offset := by
  simp only [apply_long_term_drift_correction]
  split_ifs <;> simp

/-- `apply_baseline_drift_correction` changes only the short-term offset. -/
theorem basedrift_fields (baseline raw_humidity : ℚ) (s : CalibState) :
    ((apply_baseline_drift_correction baseline raw_humidity s)).recent_readings
        = s.recent_readings
    ∧ ((apply_baseline_drift_correction baseline raw_humidity s)).reading_sequence
        = s.reading_sequence
    ∧ ((apply_baseline_drift_correction baseline raw_humidity s)).long_term_statistical_offset
        = s.long_term_statistical_offset := by
  simp only [apply_baseline_drift_correction]
  split_ifs <;> simp

end AirQuality

namespace AirQuality

set_option maxHeartbeats 1000000 in
/-- `add_measurement` pushes the raw reading into the window twice and bumps
the reading-sequence counter by exactly two, on every path. -/
theorem add_window_seq (t r : ℚ) (s : CalibState) :
    (add_measurement t r s).recent_readings = pushReading r (pushReading r s.recent_readings)
    ∧ (add_measurement t r s).reading_sequence = s.reading_sequence + 2 := by
  have h1 := detect_window_seq r s
  have h2 := detect_window_seq r (detect_rapid_change r s).2
  have h3 := handle_fields r (detect_rapid_change r s).2
  have h4 := establishment_window_seq r (handle_rapid_change r (detect_rapid_change r s).2).2
  unfold add_measurement
  dsimp only
  split_ifs with hb1 hb2
  · constructor
    · rw [h3.2.2.1, h2.1, h1.1]
    · rw [h3.2.2.2.1, h2.2, h1.2]
  · constructor
    · rw [h4.1, h3.2.2.1, h2.1, h1.1]
    · rw [h4.2, h3.2.2.2.1, h2.2, h1.2]
  · rcases hcb : ((update_baseline_establishment r
        (handle_rapid_change r (detect_rapid_change r s).2).2).2).current_baseline with _ | b
    · simp only [hcb]
      constructor
      · rw [h4.1, h3.2.2.1, h2.1, h1.1]
      · rw [h4.2, h3.2.2.2.1, h2.2, h1.2]
    · simp only [hcb]
      have h5 := stability_fields (r - b)
        (update_baseline_establishment r
          (handle_rapid_change r (detect_rapid_change r s).2).2).2
      have h6 := longterm_fields t r
        (update_long_term_stability (r - b)
          (update_baseline_establishment r
            (handle_rapid_change r (detect_rapid_change r s).2).2).2)
      have h7 := basedrift_fields b r
        (apply_long_term_drift_correction t r
          (update_long_term_stability (r - b)
            (update_baseline_establishment r
              (handle_rapid_change r (detect_rapid_change r s).2).2).2))
      constructor
      · rw [h7.1, h6.1, h5.1, h4.1, h3.2.2.1, h2.1, h1.1]
      · rw [h7.2.1, h6.2.1, h5.2.1, h4.2, h3.2.2.2.1, h2.2, h1.2]

/-- After any nonempty measurement run the window holds either two or three
slots ending in two copies of the most recent raw reading. -/
theorem runCalib_window_shape :
    ∀ (ms : List (ℚ × ℚ)) (h : ms ≠ []),
      (runCalib ms).recent_readings = [(ms.getLast h).2, (ms.getLast h).2]
      ∨ ∃ q, (runCalib ms).recent_readings
          = [q, (ms.getLast h).2, (ms.getLast h).2] := by
  intro ms
  induction ms using List.reverseRecOn with
  | nil => intro h; exact absurd rfl h
  | append_singleton ms m ih =>
    intro hne
    have hrun : runCalib (ms ++ [m]) = add_measurement m.1 m.2 (runCalib ms) := by
      simp [runCalib, List.foldl_append]
    have hlast : ((ms ++ [m]).getLast hne) = m := by
      simp [List.getLast_append]
    obtain ⟨haw, _⟩ := add_window_seq m.1 m.2 (runCalib ms)
    by_cases hms : ms = []
    · subst hms
      left
      rw [hlast, hrun, haw]
      have : (runCalib []).recent_readings = [] := rfl
      rw [this]
      simp [pushReading, CHANGE_HISTORY_SIZE]
    · rcases ih hms with hw | ⟨q, hw⟩
      · right
        refine ⟨(ms.getLast hms).2, ?_⟩
        rw [hlast, hrun, haw, hw]
        simp [pushReading, CHANGE_HISTORY_SIZE]
      · right
        refine ⟨(ms.getLast hms).2, ?_⟩
        rw [hlast, hrun, haw, hw]
        simp [pushReading, CHANGE_HISTORY_SIZE]

end AirQuality

namespace AirQuality

set_option maxHeartbeats 1000000 in
/-- With at least two samples in the updated window, the change value returned
by a detector pass is newest minus oldest of that window. -/
theorem detect_change_value (r : ℚ) (s : CalibState)
    (h2 : 2 ≤ (pushReading r s.recent_readings).length) :
    (detect_rapid_change r s).1.2 = r - (pushReading r s.recent_readings).headD 0 := by
  rcases hpb : s.pre_change_baseline with _ | b <;>
    simp only [detect_rapid_change, pushReading, hpb] at h2 ⊢ <;>
    split_ifs at h2 ⊢ <;> first | rfl | omega

set_option maxHeartbeats 1000000 in
/-- A detector pass whose window change reaches the rapid-change threshold
reports a rapid change and raises the in-rapid-change flag. -/
theorem detect_rapid_flag (r : ℚ) (s : CalibState)
    (h2 : 2 ≤ (pushReading r s.recent_readings).length)
    (hr : RAPID_CHANGE_THRESHOLD ≤ |r - (pushReading r s.recent_readings).headD 0|) :
    (detect_rapid_change r s).1.1 = true
    ∧ (detect_rapid_change r s).2.in_rapid_change_period = true := by
  rcases hpb : s.pre_change_baseline with _ | b <;>
    simp only [detect_rapid_change, pushReading, RAPID_CHANGE_THRESHOLD, hpb] at h2 hr ⊢ <;>
    split_ifs at h2 hr ⊢ <;> first | exact ⟨rfl, rfl⟩ | omega

/-- The reading-sequence counter advances by two per measurement. -/
theorem runCalibSteps_seq (ms : List (ℚ × ℚ)) :
    ∀ s : CalibState, (runCalibSteps s ms).reading_sequence
      = s.reading_sequence + 2 * ms.length := by
  induction ms with
  | nil => intro s; simp [runCalibSteps]
  | cons m rest ih =>
    intro s
    have hstep : runCalibSteps s (m :: rest)
        = runCalibSteps (add_measurement m.1 m.2 s) rest := by
      simp only [runCalibSteps, List.foldl_cons]
    rw [hstep, ih, (add_window_seq m.1 m.2 s).2]
    simp [List.length_cons]
    ring

/-- Claim C10: every `add_measurement` call runs the rapid-change detector
twice on the same sample — the reading-sequence counter grows by exactly 2 per
measurement, the raw value enters the 3-slot window twice (so the window holds
at most two distinct consecutive measurements), and the newest-minus-oldest
change of both detector passes compares the current sample against the
immediately preceding one. -/
theorem c10_detector_runs_twice_per_measurement :
    ∀ ms : List (ℚ × ℚ),
      (runCalib ms).reading_sequence = 2 * ms.length
      ∧ (∀ t r : ℚ, ms = [] → (runCalib (ms ++ [(t, r)])).recent_readings = [r, r])
      ∧ (∀ (t r : ℚ) (h : ms ≠ []),
          (runCalib (ms ++ [(t, r)])).recent_readings = [(ms.getLast h).2, r, r]
          ∧ (detect_rapid_change r (runCalib ms)).1.2 = r - (ms.getLast h).2
          ∧ (detect_rapid_change r (detect_rapid_change r (runCalib ms)).2).1.2
              = r - (ms.getLast h).2) := by
  intro ms
  refine ⟨?_, ?_, ?_⟩
  · have h := runCalibSteps_seq ms CalibState.new
    simpa [runCalib, runCalibSteps, CalibState.new] using h
  · intro t r hms
    subst hms
    obtain ⟨haw, _⟩ := add_window_seq t r (runCalib [])
    have hrun : runCalib ([] ++ [(t, r)]) = add_measurement t r (runCalib []) := rfl
    rw [hrun, haw]
    have hempty : (runCalib []).recent_readings = [] := rfl
    rw [hempty]
    simp [pushReading, CHANGE_HISTORY_SIZE]
  · intro t r hne
    have hrun : runCalib (ms ++ [(t, r)]) = add_measurement t r (runCalib ms) := by
      simp [runCalib, List.foldl_append]
    obtain ⟨haw, _⟩ := add_window_seq t r (runCalib ms)
    have hshape := runCalib_window_shape ms hne
    have hwin : ∀ p, (runCalib ms).recent_readings = [p, p]
        ∨ (∃ q, (runCalib ms).recent_readings = [q, p, p]) →
        pushReading r (runCalib ms).recent_readings = [p, p, r] := by
      intro p hp
      rcases hp with hw | ⟨q, hw⟩ <;> rw [hw] <;> simp [pushReading, CHANGE_HISTORY_SIZE]
    set p := (ms.getLast hne).2 with hp
    have hpush1 : pushReading r (runCalib ms).recent_readings = [p, p, r] := by
      rcases hshape with hw | ⟨q, hw⟩ <;> rw [hw] <;> simp [pushReading, CHANGE_HISTORY_SIZE]
    refine ⟨?_, ?_, ?_⟩
    · rw [hrun, haw, hpush1]
      simp [pushReading, CHANGE_HISTORY_SIZE]
    · rw [detect_change_value r (runCalib ms) (by rw [hpush1]; simp), hpush1]
      simp
    · have hw1 : ((detect_rapid_change r (runCalib ms)).2).recent_readings = [p, p, r] := by
        rw [(detect_window_seq r (runCalib ms)).1, hpush1]
      have hpush2 : pushReading r ((detect_rapid_change r (runCalib ms)).2).recent_readings
          = [p, r, r] := by
        rw [hw1]; simp [pushReading, CHANGE_HISTORY_SIZE]
      rw [detect_change_value r _ (by rw [hpush2]; simp), hpush2]
      simp

/-- Witness for C10: one prior measurement of 50 %RH, then 60 %RH. -/
theorem c10_detector_runs_twice_per_measurement_witness :
    (runCalib ([((25 : ℚ), (50 : ℚ))] ++ [((25 : ℚ), (60 : ℚ))])).recent_readings
        = [50, 60, 60]
    ∧ (detect_rapid_change 60 (runCalib [((25 : ℚ), (50 : ℚ))])).1.2 = 60 - 50 := by
  have h := (c10_detector_runs_twice_per_measurement [((25 : ℚ), (50 : ℚ))]).2.2 25 60
    (by simp)
  exact ⟨by simpa using h.1, by simpa using h.2.1⟩

end AirQuality

namespace AirQuality

/-- `handle_rapid_change` either keeps the detector counts or resets the
baseline count to zero. -/
theorem handle_counts (r : ℚ) (s : CalibState) :
    (((handle_rapid_change r s).2).baseline_reading_count
        = ((detect_rapid_change r s).2).baseline_reading_count
      ∨ ((handle_rapid_change r s).2).baseline_reading_count = 0)
    ∧ ((handle_rapid_change r s).2).stable_reading_count
        = ((detect_rapid_change r s).2).stable_reading_count := by
  simp only [handle_rapid_change, reset_calibration_for_rapid_change]
  split_ifs <;> simp

set_option maxHeartbeats 1000000 in
/-- While the baseline is still being established and the stable counter is
far from the recovery threshold, one measurement advances the baseline count
by at most one, the stable counter by at most two, and performs no learning
step on either offset. -/
theorem add_establishing_step (t r : ℚ) (s : CalibState)
    (hc : s.baseline_reading_count < INITIAL_BASELINE_READINGS)
    (hs : s.stable_reading_count + 2 < MIN_STABLE_READINGS_AFTER_RAPID_CHANGE) :
    (add_measurement t r s).baseline_reading_count ≤ s.baseline_reading_count + 1
    ∧ (add_measurement t r s).stable_reading_count ≤ s.stable_reading_count + 2
    ∧ ((add_measurement t r s).humidity_offset = s.humidity_offset
        ∨ (add_measurement t r s).humidity_offset = 0)
    ∧ (add_measurement t r s).long_term_statistical_offset
        = s.long_term_statistical_offset := by
  unfold add_measurement
  dsimp only
  obtain ⟨hd1c, hd1b, hd1h, hd1s, hd1l⟩ := detect_no_exit r s (by omega)
  generalize hg1 : (detect_rapid_change r s).2 = S1 at *
  obtain ⟨hd2c, hd2b, hd2h, hd2s, hd2l⟩ := detect_no_exit r S1 (by omega)
  obtain ⟨hhl, hhh, _, _, _⟩ := handle_fields r S1
  obtain ⟨hhc, hhs⟩ := handle_counts r S1
  generalize hg2 : (detect_rapid_change r S1).2 = S2 at *
  generalize hg3 : (handle_rapid_change r S1).2 = S3 at *
  have hcount5 : S3.baseline_reading_count < INITIAL_BASELINE_READINGS := by
    rcases hhc with h | h <;> omega
  obtain ⟨he1, he2, he3, he4, he5⟩ := establishment_fields r S3 hcount5
  generalize hg4 : (update_baseline_establishment r S3).2 = S4 at *
  split_ifs with hb1
  · refine ⟨by rcases hhc with h | h <;> omega, by omega, ?_, by rw [hhl, hd2l, hd1l]⟩
    rcases hhh with h | h
    · exact Or.inl (by rw [h, hd2h, hd1h])
    · exact Or.inr h
  · refine ⟨by omega, by omega, ?_, by rw [he4, hhl, hd2l, hd1l]⟩
    rcases hhh with h | h
    · exact Or.inl (by rw [he3, h, hd2h, hd1h])
    · exact Or.inr (by rw [he3, h])

/-- Within the first five measurements of a fresh calibrator, the baseline
count tracks the number of measurements, the stable counter stays below the
recovery threshold, and both offsets stay at zero. -/
theorem runCalib_first_five (ms : List (ℚ × ℚ)) :
    ms.length ≤ 5 →
      (runCalib ms).baseline_reading_count ≤ ms.length
      ∧ (runCalib ms).stable_reading_count ≤ 2 * ms.length
      ∧ (runCalib ms).humidity_offset = 0
      ∧ (runCalib ms).long_term_statistical_offset = 0 := by
  induction ms using List.reverseRecOn with
  | nil =>
    intro _
    exact ⟨le_rfl, by simp [runCalib, CalibState.new], rfl, rfl⟩
  | append_singleton ms m ih =>
    intro hlen
    have hlapp : (ms ++ [m]).length = ms.length + 1 := by simp
    obtain ⟨ih1, ih2, ih3, ih4⟩ := ih (by omega)
    have hrun : runCalib (ms ++ [m]) = add_measurement m.1 m.2 (runCalib ms) := by
      simp [runCalib, List.foldl_append]
    obtain ⟨hc, hst, hh, hl⟩ := add_establishing_step m.1 m.2 (runCalib ms)
      (by unfold INITIAL_BASELINE_READINGS; omega)
      (by unfold MIN_STABLE_READINGS_AFTER_RAPID_CHANGE; omega)
    rw [hrun, hlapp]
    refine ⟨by omega, by omega, ?_, by rw [hl, ih4]⟩
    rcases hh with h | h
    · rw [h, ih3]
    · rw [h]

/-- Claim C4: `calibrate_humidity` returns
`clamp (raw + short_term_offset + long_term_offset) 0 100` once the baseline
reading count has reached 5, returns the raw value completely unmodified
while the count is below 5, and in particular returns each of the first five
raw values (in the physical range 0–100 %RH) of a fresh calibrator
unchanged. -/
theorem c4_calibrate_humidity_piecewise :
    (∀ (s : CalibState) (r : ℚ), INITIAL_BASELINE_READINGS ≤ s.baseline_reading_count →
        calibrate_humidity s r
          = max 0 (min (r + s.humidity_offset + s.long_term_statistical_offset) 100))
    ∧ (∀ (s : CalibState) (r : ℚ), s.baseline_reading_count < INITIAL_BASELINE_READINGS →
        calibrate_humidity s r = r)
    ∧ (∀ (ms : List (ℚ × ℚ)) (h : ms ≠ []), ms.length ≤ 5 →
        (∀ m ∈ ms, 0 ≤ m.2 ∧ m.2 ≤ 100) →
        calibrate_humidity (runCalib ms) (ms.getLast h).2 = (ms.getLast h).2) := by
  refine ⟨?_, ?_, ?_⟩
  · intro s r hge
    rw [calibrate_humidity, if_neg (by omega)]
  · intro s r hlt
    rw [calibrate_humidity, if_pos hlt]
  · intro ms h hlen hrange
    obtain ⟨hc, _, hh, hl⟩ := runCalib_first_five ms hlen
    obtain ⟨hr0, hr100⟩ := hrange (ms.getLast h) (List.getLast_mem h)
    rcases Nat.lt_or_ge (runCalib ms).baseline_reading_count INITIAL_BASELINE_READINGS
      with hlt | hge
    · rw [calibrate_humidity, if_pos hlt]
    · rw [calibrate_humidity, if_neg (by omega)]
      dsimp only
      rw [hh, hl, add_zero, add_zero, min_eq_left hr100, max_eq_right hr0]

/-- Witness for C4: a fresh calibrator returns the raw value during
establishment, after five 50 %RH readings the fifth reading is returned
unchanged, and an established state applies both offsets with clamping. -/
theorem c4_calibrate_humidity_piecewise_witness :
    calibrate_humidity CalibState.new 42 = 42
    ∧ calibrate_humidity (runCalib [(25, 50), (25, 50), (25, 50), (25, 50), (25, 50)]) 50 = 50
    ∧ calibrate_humidity ⟨[], 2, none, 5, 0, 0, false, none, 0, false, 3, 0⟩ 50
        = max 0 (min ((50 : ℚ) + 2 + 3) 100) := by
  refine ⟨c4_calibrate_humidity_piecewise.2.1 CalibState.new 42 (by decide), ?_, ?_⟩
  · have h := c4_calibrate_humidity_piecewise.2.2
      [(25, 50), (25, 50), (25, 50), (25, 50), (25, 50)] (by simp) (by simp)
      (by intro m hm; fin_cases hm <;> norm_num)
    simpa using h
  · exact c4_calibrate_humidity_piecewise.1 ⟨[], 2, none, 5, 0, 0, false, none, 0, false, 3, 0⟩
      50 (by decide)

end AirQuality

namespace AirQuality

/-- Folding measurements distributes over list append. -/
theorem runCalibSteps_append (s : CalibState) (l1 l2 : List (ℚ × ℚ)) :
    runCalibSteps s (l1 ++ l2) = runCalibSteps (runCalibSteps s l1) l2 := by
  simp [runCalibSteps, List.foldl_append]

/-- Measurements 1–40 of the C3 counterexample trace. -/
theorem c3_chunk1 :
    runCalibSteps CalibState.new (List.replicate 40 ((25 : ℚ), (70 : ℚ))) = c3_state_40 := by
  with_unfolding_all decide

/-- Measurements 41–80 of the C3 counterexample trace. -/
theorem c3_chunk2 :
    runCalibSteps c3_state_40 (List.replicate 40 ((25 : ℚ), (70 : ℚ))) = c3_state_80 := by
  with_unfolding_all decide

/-- Measurements 81–110 of the C3 counterexample trace. -/
theorem c3_chunk3 :
    runCalibSteps c3_state_80 (List.replicate 24 ((25 : ℚ), (70 : ℚ))
      ++ ([(25, 80), (25, 76)] ++ List.replicate 4 ((25 : ℚ), (72 : ℚ)))) = c3_state_110 := by
  with_unfolding_all decide

/-- The state reached by the 110-measurement flagged prefix. -/
theorem c3_prefix_eval : runCalib c3_flagged_prefix = c3_state_110 := by
  have hsplit : c3_flagged_prefix
      = List.replicate 40 ((25 : ℚ), (70 : ℚ)) ++ (List.replicate 40 ((25 : ℚ), (70 : ℚ))
          ++ (List.replicate 24 ((25 : ℚ), (70 : ℚ))
            ++ ([(25, 80), (25, 76)] ++ List.replicate 4 ((25 : ℚ), (72 : ℚ))))) := by
    with_unfolding_all decide
  have h0 : runCalib c3_flagged_prefix = runCalibSteps CalibState.new c3_flagged_prefix := rfl
  rw [h0, hsplit, runCalibSteps_append, c3_chunk1, runCalibSteps_append, c3_chunk2, c3_chunk3]

/-- Counterexample to claim C3 as stated: after `c3_flagged_prefix` the
calibrator is flagged in a rapid-change period, yet the very next
`add_measurement` call — made while flagged — adjusts the long-term
statistical offset by a learning step (from 0 to −27/200). -/
theorem c3_counterexample_learning_on_flagged_call :
    (runCalib c3_flagged_prefix).in_rapid_change_period = true
    ∧ (add_measurement 25 72 (runCalib c3_flagged_prefix)).long_term_statistical_offset
        ≠ (runCalib c3_flagged_prefix).long_term_statistical_offset
    ∧ (add_measurement 25 72 (runCalib c3_flagged_prefix)).long_term_statistical_offset
        = -27 / 200 := by
  rw [c3_prefix_eval]
  refine ⟨rfl, ?_, ?_⟩ <;> with_unfolding_all decide

/-- The flag returned by `handle_rapid_change` is the disjunction of "rapid
change reported by its detector pass" and "still in the rapid-change
period". -/
theorem handle_flag (r : ℚ) (s : CalibState) :
    (handle_rapid_change r s).1
      = ((detect_rapid_change r s).1.1 || (detect_rapid_change r s).2.in_rapid_change_period) := by
  simp only [handle_rapid_change, reset_calibration_for_rapid_change]
  split_ifs <;> simp_all

set_option maxHeartbeats 1000000 in
/-- Claim C3 (amended): on every `add_measurement` call whose rapid-change
handling returns early — a rapid change was just reported or the calibrator is
still flagged afterwards, which includes the call that first raises the flag —
neither offset undergoes a learning step: the long-term statistical offset is
unchanged and the short-term offset is at most reset to zero.  (On the call
that exits the period and re-establishes the baseline, the short-term offset
is reset to zero but the long-term offset may still be adjusted.)  Moreover a
sample differing from its predecessor by at least the 5 %RH threshold raises
the in-rapid-change flag on that very measurement. -/
theorem c3_no_learning_while_flagged_amended :
    (∀ (t r : ℚ) (s : CalibState),
        (handle_rapid_change r (detect_rapid_change r s).2).1 = true →
        (add_measurement t r s).long_term_statistical_offset = s.long_term_statistical_offset
        ∧ ((add_measurement t r s).humidity_offset = s.humidity_offset
            ∨ (add_measurement t r s).humidity_offset = 0))
    ∧ (∀ (ms : List (ℚ × ℚ)) (h : ms ≠ []) (t r : ℚ),
        RAPID_CHANGE_THRESHOLD ≤ |r - (ms.getLast h).2| →
        (runCalib (ms ++ [(t, r)])).in_rapid_change_period = true) := by
  constructor
  · intro t r s hflag
    obtain ⟨h1l, h1h⟩ := detect_offsets r s
    obtain ⟨h2l, h2h⟩ := detect_offsets r (detect_rapid_change r s).2
    obtain ⟨hhl, hhh, _, _, _⟩ := handle_fields r (detect_rapid_change r s).2
    unfold add_measurement
    dsimp only
    rw [if_pos hflag]
    constructor
    · rw [hhl, h2l, h1l]
    · rcases hhh with h | h
      · rcases h2h with h2 | h2
        · rcases h1h with h1 | h1
          · exact Or.inl (by rw [h, h2, h1])
          · exact Or.inr (by rw [h, h2, h1])
        · exact Or.inr (by rw [h, h2])
      · exact Or.inr h
  · intro ms hne t r hv
    have hrun : runCalib (ms ++ [(t, r)]) = add_measurement t r (runCalib ms) := by
      simp [runCalib, List.foldl_append]
    set p := (ms.getLast hne).2 with hp
    have hshape := runCalib_window_shape ms hne
    have hpush1 : pushReading r (runCalib ms).recent_readings = [p, p, r] := by
      rcases hshape with hw | ⟨q, hw⟩ <;> rw [hw] <;> simp [pushReading, CHANGE_HISTORY_SIZE]
    obtain ⟨hr1, hper1⟩ := detect_rapid_flag r (runCalib ms)
      (by rw [hpush1]; simp) (by rw [hpush1]; simpa using hv)
    have hw1 : ((detect_rapid_change r (runCalib ms)).2).recent_readings = [p, p, r] := by
      rw [(detect_window_seq r (runCalib ms)).1, hpush1]
    have hpush2 : pushReading r ((detect_rapid_change r (runCalib ms)).2).recent_readings
        = [p, r, r] := by
      rw [hw1]; simp [pushReading, CHANGE_HISTORY_SIZE]
    obtain ⟨hr2, hper2⟩ := detect_rapid_flag r (detect_rapid_change r (runCalib ms)).2
      (by rw [hpush2]; simp) (by rw [hpush2]; simpa using hv)
    have hflag : (handle_rapid_change r (detect_rapid_change r (runCalib ms)).2).1 = true := by
      rw [handle_flag, hr2]
      simp
    obtain ⟨_, _, _, _, hper⟩ := handle_fields r (detect_rapid_change r (runCalib ms)).2
    rw [hrun]
    unfold add_measurement
    dsimp only
    rw [if_pos hflag, hper, hper2]

/-- Witness for the amended C3: a rapid jump from the flagged state of the
counterexample trace adjusts no offset, and a 50→60 jump flags the
calibrator on the crossing sample. -/
theorem c3_no_learning_while_flagged_amended_witness :
    ((add_measurement 25 80 c3_state_110).long_term_statistical_offset
        = c3_state_110.long_term_statistical_offset
      ∧ ((add_measurement 25 80 c3_state_110).humidity_offset = c3_state_110.humidity_offset
          ∨ (add_measurement 25 80 c3_state_110).humidity_offset = 0))
    ∧ (runCalib ([((25 : ℚ), (50 : ℚ))] ++ [((25 : ℚ), (60 : ℚ))])).in_rapid_change_period
        = true := by
  constructor
  · exact c3_no_learning_while_flagged_amended.1 25 80 c3_state_110
      (by with_unfolding_all decide)
  · exact c3_no_learning_while_flagged_amended.2 [((25 : ℚ), (50 : ℚ))] (by simp) 25 60
      (by with_unfolding_all decide)

/-- Claim C1, evaluated at the failing input: a rapid change from 50 %RH to a
sustained 60 %RH level (a confirmed baseline shift staying ≥ 8 %RH from the
stored pre-change baseline).  Although well over 12 consecutive stable
samples have elapsed since the rapid change began, the calibrator is still in
the rapid-change period, still stores the pre-change baseline of 50 %RH, and
has no established baseline — it never exits. -/
theorem c1_confirmed_shift_never_recovers :
    MIN_STABLE_READINGS_AFTER_RAPID_CHANGE
        ≤ (runCalib c1_failing_trace).stable_reading_count
    ∧ (runCalib c1_failing_trace).baseline_shifted = true
    ∧ (runCalib c1_failing_trace).in_rapid_change_period = true
    ∧ (runCalib c1_failing_trace).pre_change_baseline = some 50
    ∧ (runCalib c1_failing_trace).current_baseline = none
    ∧ (runCalib c1_failing_trace).baseline_reading_count = 0 := by
  with_unfolding_all decide

end AirQuality
